import Mathlib

/-!
Verification of the keystone assembler backends for RISC-V and SystemZ:
a shallow embedding of `RISCVAsmBackend.cpp` (`adjustFixupValue`,
`applyFixup`, `writeNopData`) and `SystemZMCAsmBackend.cpp`
(`extractBitsForFixup`, `applyFixup`), with theorems about fixup value
adjustment, range/alignment diagnostics, byte-level fixup application and
NOP padding.

Machine integers are modelled as `Nat` (values below `2^64`), with
`% 2^64` inserted exactly where the C++ `uint64_t` arithmetic can wrap.
Fragment buffers are `List Nat` of byte values; `List.set` past the end of
the list is a no-op (the C++ code would touch memory out of bounds there,
which we note where relevant).  Diagnostics reported through
`MCContext::reportError` are collected in a `List String`; the keystone
error out-parameter `KsError` is the two-valued `KsErr` below.
-/

/-- Keystone error out-parameter values used by `applyFixup`:
`KS_ERR_OK` (never assigned, i.e. left at its initial value) and
`KS_ERR_ASM_FIXUP_INVALID`. -/
inductive KsErr where
  | KS_ERR_OK
  | KS_ERR_ASM_FIXUP_INVALID
deriving DecidableEq

namespace RISCV

/-- The RISC-V fixup kinds of `RISCVFixupKinds.h` (in declaration order,
as fixed by the `getFixupKindInfo` table) together with the generic
`FK_Data_*` kinds that `adjustFixupValue` accepts. -/
inductive FixupKind where
  | FK_Data_1
  | FK_Data_2
  | FK_Data_4
  | FK_Data_8
  | fixup_riscv_hi20
  | fixup_riscv_lo12_i
  | fixup_riscv_lo12_s
  | fixup_riscv_pcrel_hi20
  | fixup_riscv_jal
  | fixup_riscv_branch
  | fixup_riscv_rvc_jump
  | fixup_riscv_rvc_branch
deriving DecidableEq

/-- Modelled from the spec: LLVM's `isInt<N>` (`isSignedNBit` in the
spec's words) from `llvm/Support/MathExtras.h`, which is not part of the
source tree.  For a `uint64_t` argument `v` it decides whether the
two's-complement reinterpretation of `v` fits in `n` signed bits:
`v < 2^(n-1)` or `v ≥ 2^64 - 2^(n-1)`. -/
def isInt (n v : Nat) : Bool :=
  decide (v < 2 ^ (n - 1)) || decide (2 ^ 64 - 2 ^ (n - 1) ≤ v)

/-- `adjustFixupValue` of `RISCVAsmBackend.cpp`: the pure value adjuster.
Returns the diagnostics reported via `Ctx.reportError` (in source order)
together with the adjusted value.  The C++ function keeps computing after
reporting an error, so the value component is always produced. -/
def adjustFixupValue (kind : FixupKind) (value : Nat) : List String × Nat :=
  match kind with
  | .FK_Data_1 | .FK_Data_2 | .FK_Data_4 | .FK_Data_8 =>
      ([], value)
  | .fixup_riscv_lo12_i =>
      ([], value &&& 0xfff)
  | .fixup_riscv_lo12_s =>
      ([], (((value >>> 5) &&& 0x7f) <<< 25) ||| ((value &&& 0x1f) <<< 7))
  | .fixup_riscv_hi20 | .fixup_riscv_pcrel_hi20 =>
      -- Add 1 if bit 11 is 1, to compensate for low 12 bits being negative.
      -- `Value + 0x800` is uint64 arithmetic, hence the `% 2 ^ 64`.
      ([], (((value + 0x800) % 2 ^ 64) >>> 12) &&& 0xfffff)
  | .fixup_riscv_jal =>
      ((if isInt 21 value then [] else ["fixup value out of range"]) ++
       (if value &&& 0x1 ≠ 0 then ["fixup value must be 2-byte aligned"] else []),
       -- imm[19|10:1|11|19:12]: (Sbit << 19) | (Lo10 << 9) | (Mid1 << 8) | Hi8
       (((value >>> 20) &&& 0x1) <<< 19) ||| (((value >>> 1) &&& 0x3ff) <<< 9) |||
         (((value >>> 11) &&& 0x1) <<< 8) ||| ((value >>> 12) &&& 0xff))
  | .fixup_riscv_branch =>
      ((if isInt 13 value then [] else ["fixup value out of range"]) ++
       (if value &&& 0x1 ≠ 0 then ["fixup value must be 2-byte aligned"] else []),
       -- imm[12], imm[10:5], imm[4:1], imm[11]:
       -- (Sbit << 31) | (Mid6 << 25) | (Lo4 << 8) | (Hi1 << 7)
       (((value >>> 12) &&& 0x1) <<< 31) ||| (((value >>> 5) &&& 0x3f) <<< 25) |||
         (((value >>> 1) &&& 0xf) <<< 8) ||| (((value >>> 11) &&& 0x1) <<< 7))
  | .fixup_riscv_rvc_jump =>
      -- offset[11|4|9:8|10|6|7|3:1|5]
      ([], (((value >>> 11) &&& 0x1) <<< 10) ||| (((value >>> 4) &&& 0x1) <<< 9) |||
        (((value >>> 8) &&& 0x3) <<< 7) ||| (((value >>> 10) &&& 0x1) <<< 6) |||
        (((value >>> 6) &&& 0x1) <<< 5) ||| (((value >>> 7) &&& 0x1) <<< 4) |||
        (((value >>> 1) &&& 0x7) <<< 1) ||| ((value >>> 5) &&& 0x1))
  | .fixup_riscv_rvc_branch =>
      -- offset[8|4:3], [reg 3 bit], offset[7:6|2:1|5]
      ([], (((value >>> 8) &&& 0x1) <<< 12) ||| (((value >>> 3) &&& 0x3) <<< 10) |||
        (((value >>> 6) &&& 0x3) <<< 5) ||| (((value >>> 1) &&& 0x3) <<< 3) |||
        (((value >>> 5) &&& 0x1) <<< 2))

/-- `getSize` of `RISCVAsmBackend.cpp`: total byte width of the patched
field, 2 for the compressed kinds and 4 otherwise. -/
def getSize (kind : FixupKind) : Nat :=
  match kind with
  | .fixup_riscv_rvc_jump | .fixup_riscv_rvc_branch => 2
  | _ => 4

/-- `TargetOffset` column of the `getFixupKindInfo` table in
`RISCVAsmBackend.cpp` (bit position of the field), for the target fixup
kinds; the generic `FK_Data_*` kinds have offset 0. -/
def targetOffset (kind : FixupKind) : Nat :=
  match kind with
  | .FK_Data_1 | .FK_Data_2 | .FK_Data_4 | .FK_Data_8 => 0
  | .fixup_riscv_hi20 => 12
  | .fixup_riscv_lo12_i => 20
  | .fixup_riscv_lo12_s => 0
  | .fixup_riscv_pcrel_hi20 => 12
  | .fixup_riscv_jal => 12
  | .fixup_riscv_branch => 0
  | .fixup_riscv_rvc_jump => 2
  | .fixup_riscv_rvc_branch => 0

/-- The little-endian OR-merge loop of `RISCVAsmBackend::applyFixup`:
for `i = 0 .. n-1`, `Data[Offset + i] |= uint8_t((Value >> (i * 8)) & 0xff)`.
An index past the end of the list leaves the list unchanged (the C++ code
has no bounds check here). -/
def orBytesLE (data : List Nat) (offset n v : Nat) : List Nat :=
  match n with
  | 0 => data
  | m + 1 =>
      orBytesLE (data.set offset ((data.getD offset 0) ||| (v &&& 0xff)))
        (offset + 1) m (v >>> 8)

/-- `RISCVAsmBackend::applyFixup`: short-circuit on a zero (raw) value,
adjust, shift by `TargetOffset` (uint64 shift, hence `% 2 ^ 64`), then
OR-merge `getSize` bytes little-endian.  The `KsError` out-parameter is
never assigned by this backend, so the `KsErr` component is always
`KS_ERR_OK`; there is no bounds check (only a debug-build assertion). -/
def applyFixup (kind : FixupKind) (offset value : Nat) (data : List Nat) :
    KsErr × List String × List Nat :=
  if value = 0 then (.KS_ERR_OK, [], data)
  else
    let adjusted := adjustFixupValue kind value
    let shifted := (adjusted.2 <<< targetOffset kind) % 2 ^ 64
    (.KS_ERR_OK, adjusted.1, orBytesLE data offset (getSize kind) shifted)

/-- Modelled from the spec: `MCObjectWriter::write32` (not in the source
tree) emits a 32-bit word as four bytes, little-endian for the RISC-V
object writer. -/
def write32 (w : Nat) : List Nat :=
  [w &&& 0xff, (w >>> 8) &&& 0xff, (w >>> 16) &&& 0xff, (w >>> 24) &&& 0xff]

/-- The emission loop of `RISCVAsmBackend::writeNopData`:
`for (i = 0; i < Count; i += 4) OW->write32(0x13)`. -/
def writeNopLoop (count i : Nat) : List Nat :=
  if _hi : i < count then write32 0x13 ++ writeNopLoop count (i + 4) else []
termination_by count - i
decreasing_by omega

/-- `RISCVAsmBackend::writeNopData`: returns `false` (emitting nothing)
unless the byte count is a multiple of 4, else emits the canonical NOP
`addi x0, x0, 0` (`0x13`) once per 4 bytes and returns `true`. -/
def writeNopData (count : Nat) : Bool × List Nat :=
  if count % 4 ≠ 0 then (false, [])
  else (true, writeNopLoop count 0)

/-- The fixup kinds whose adjuster performs the `isInt<N>` range check,
with the checked width `N`: `fixup_riscv_jal` checks `isInt<21>` and
`fixup_riscv_branch` checks `isInt<13>`; no other kind is range-checked
by `adjustFixupValue`. -/
def rangeCheckWidth (kind : FixupKind) : Option Nat :=
  match kind with
  | .fixup_riscv_jal => some 21
  | .fixup_riscv_branch => some 13
  | _ => none

/-- The fixup kinds whose adjuster validates 2-byte alignment
(`Value & 0x1` reported as "fixup value must be 2-byte aligned"):
exactly `fixup_riscv_jal` and `fixup_riscv_branch`. -/
def requires2ByteAlign (kind : FixupKind) : Bool :=
  match kind with
  | .fixup_riscv_jal | .fixup_riscv_branch => true
  | _ => false

end RISCV

namespace SystemZ

/-- The SystemZ target fixup kinds of `SystemZMCFixups.h`, in the order
fixed by the `getFixupKindInfo` table of `SystemZMCAsmBackend.cpp`. -/
inductive FixupKind where
  | FK_390_PC16DBL
  | FK_390_PC32DBL
  | FK_390_TLS_CALL
deriving DecidableEq

/-- `TargetSize` column (bit width of the field) of the
`getFixupKindInfo` table in `SystemZMCAsmBackend.cpp`. -/
def targetSize (kind : FixupKind) : Nat :=
  match kind with
  | .FK_390_PC16DBL => 16
  | .FK_390_PC32DBL => 32
  | .FK_390_TLS_CALL => 0

/-- The C++ cast `(int64_t)Value` of a `uint64_t`: two's-complement
reinterpretation. -/
def int64OfUInt64 (v : Nat) : Int :=
  if v < 2 ^ 63 then (v : Int) else (v : Int) - 2 ^ 64

/-- Conversion of an `int64_t` result back to the `uint64_t` return type:
reduction modulo `2 ^ 64`. -/
def uint64OfInt (x : Int) : Nat :=
  (x % 2 ^ 64).toNat

/-- `extractBitsForFixup` of `SystemZMCAsmBackend.cpp`: the PC16DBL and
PC32DBL kinds install `(int64_t)Value / 2` (C++ signed division truncates
toward zero, i.e. `Int.tdiv`); `FK_390_TLS_CALL` installs 0. -/
def extractBitsForFixup (kind : FixupKind) (value : Nat) : Nat :=
  match kind with
  | .FK_390_PC16DBL | .FK_390_PC32DBL =>
      uint64OfInt (Int.tdiv (int64OfUInt64 value) 2)
  | .FK_390_TLS_CALL => 0

/-- The big-endian insertion loop of `SystemZMCAsmBackend::applyFixup`:
`ShiftValue` starts at `(Size - 1) * 8` and decreases by 8, so byte `i`
receives `uint8_t(Value >> ((Size - 1 - i) * 8))`. -/
def orBytesBE (data : List Nat) (offset n v : Nat) : List Nat :=
  match n with
  | 0 => data
  | m + 1 =>
      orBytesBE (data.set offset ((data.getD offset 0) ||| ((v >>> (8 * m)) &&& 0xff)))
        (offset + 1) m v

/-- `SystemZMCAsmBackend::applyFixup`: computes the byte size of the
field from `TargetSize`, reports `KS_ERR_ASM_FIXUP_INVALID` and returns
without writing when `Offset + Size` exceeds the buffer, else OR-merges
`extractBitsForFixup` big-endian. -/
def applyFixup (kind : FixupKind) (offset value : Nat) (data : List Nat) :
    KsErr × List Nat :=
  let size := (targetSize kind + 7) / 8
  if offset + size > data.length then (.KS_ERR_ASM_FIXUP_INVALID, data)
  else (.KS_ERR_OK, orBytesBE data offset size (extractBitsForFixup kind value))

end SystemZ

/-! ## Helper lemmas -/

/-- Writing back the byte already stored at an index (or writing past the
end of the list) leaves the list unchanged. -/
theorem set_getD_self (l : List Nat) (i : Nat) : l.set i (l.getD i 0) = l := by
  induction l generalizing i with
  | nil => rfl
  | cons a t ih =>
    cases i with
    | zero => rfl
    | succ n => exact congrArg (a :: ·) (ih n)

/-- OR-merging a zero value into a buffer, little-endian, changes no byte. -/
theorem orBytesLE_zero (n : Nat) :
    ∀ (data : List Nat) (offset : Nat), RISCV.orBytesLE data offset n 0 = data := by
  induction n with
  | zero => intro data offset; rfl
  | succ m ih =>
    intro data offset
    show RISCV.orBytesLE (data.set offset ((data.getD offset 0) ||| (0 &&& 0xff)))
      (offset + 1) m (0 >>> 8) = data
    rw [Nat.zero_and, Nat.or_zero, set_getD_self, Nat.zero_shiftRight, ih]

/-- Reducing modulo `2 ^ 64` before extracting bits 12..31 changes nothing:
the discarded bits lie above the kept window. -/
theorem mask20_mod64 (x : Nat) :
    ((x % 2 ^ 64) >>> 12) &&& 0xfffff = (x >>> 12) &&& 0xfffff := by
  have h20 : (0xfffff : Nat) = 2 ^ 20 - 1 := by norm_num
  rw [h20]
  simp only [Nat.and_pow_two_sub_one_eq_mod, Nat.shiftRight_eq_div_pow]
  have h64 : (2 : Nat) ^ 64 = 2 ^ 12 * 2 ^ 52 := by norm_num
  rw [h64, Nat.mod_mul_right_div_self]
  exact Nat.mod_mod_of_dvd _ (pow_dvd_pow 2 (by omega))

/-- The NOP emission loop produces one 4-byte NOP word per remaining
4-byte step. -/
theorem writeNopLoop_eq (j : Nat) :
    ∀ count i, i ≤ count → count - i = 4 * j →
      RISCV.writeNopLoop count i = (List.replicate j (RISCV.write32 0x13)).flatten := by
  induction j with
  | zero =>
    intro count i hle hj
    rw [RISCV.writeNopLoop, dif_neg (by omega)]
    simp
  | succ m ih =>
    intro count i hle hj
    rw [RISCV.writeNopLoop, dif_pos (by omega : i < count),
      ih count (i + 4) (by omega) (by omega)]
    simp [List.replicate_succ]

/-! ## Claims -/

/-- Claim C1: for every even 64-bit value fitting in 21 signed bits, the
RISC-V value adjuster on `fixup_riscv_jal` reports no diagnostic and
returns `(v[20] << 19) | (v[10:1] << 9) | (v[11] << 8) | v[19:12]`. -/
theorem claim_C1_jal_packing (v : Nat) (_hv : v < 2 ^ 64) (heven : v % 2 = 0)
    (hfit : RISCV.isInt 21 v = true) :
    RISCV.adjustFixupValue .fixup_riscv_jal v =
      ([], (((v >>> 20) &&& 0x1) <<< 19) ||| (((v >>> 1) &&& 0x3ff) <<< 9) |||
        (((v >>> 11) &&& 0x1) <<< 8) ||| ((v >>> 12) &&& 0xff)) := by
  simp [RISCV.adjustFixupValue, hfit, Nat.and_one_is_mod, heven]

/-- Claim C1 witness: the adjusted `fixup_riscv_jal` value of `0x1000` is
exactly `0x1`, with no diagnostic. -/
theorem claim_C1_jal_packing_witness :
    RISCV.adjustFixupValue .fixup_riscv_jal 0x1000 = ([], 0x1) := by
  rw [claim_C1_jal_packing 0x1000 (by decide) (by decide) (by decide)]
  decide

/-- Claim C2: for every even 64-bit value fitting in 13 signed bits, the
RISC-V value adjuster on `fixup_riscv_branch` reports no diagnostic and
returns `(v[12] << 31) | (v[10:5] << 25) | (v[4:1] << 8) | (v[11] << 7)`. -/
theorem claim_C2_branch_packing (v : Nat) (_hv : v < 2 ^ 64) (heven : v % 2 = 0)
    (hfit : RISCV.isInt 13 v = true) :
    RISCV.adjustFixupValue .fixup_riscv_branch v =
      ([], (((v >>> 12) &&& 0x1) <<< 31) ||| (((v >>> 5) &&& 0x3f) <<< 25) |||
        (((v >>> 1) &&& 0xf) <<< 8) ||| (((v >>> 11) &&& 0x1) <<< 7)) := by
  simp [RISCV.adjustFixupValue, hfit, Nat.and_one_is_mod, heven]

/-- Claim C2 witness: the adjusted `fixup_riscv_branch` value of `0x20` is
exactly `0x02000000`, with no diagnostic. -/
theorem claim_C2_branch_packing_witness :
    RISCV.adjustFixupValue .fixup_riscv_branch 0x20 = ([], 0x02000000) := by
  rw [claim_C2_branch_packing 0x20 (by decide) (by decide) (by decide)]
  decide

/-- Claim C3 counterexample: `fixup_riscv_rvc_jump` is a PC-relative kind,
and `0x100000` does not fit its declared signed width (it does not even
fit 21 signed bits), yet the adjuster reports no diagnostic at all — the
claim that every PC-relative kind range-checks is false on the code. -/
theorem claim_C3_counterexample :
    (RISCV.adjustFixupValue .fixup_riscv_rvc_jump 0x100000).1 = [] ∧
    RISCV.isInt 12 0x100000 = false ∧ RISCV.isInt 21 0x100000 = false :=
  ⟨rfl, by decide, by decide⟩

/-- Claim C3 (amended): exactly `fixup_riscv_jal` (width 21) and
`fixup_riscv_branch` (width 13) are range-checked: whenever the value does
not fit the checked signed width, the adjuster reports "fixup value out of
range"; the other PC-relative kinds (`fixup_riscv_pcrel_hi20`,
`fixup_riscv_rvc_jump`, `fixup_riscv_rvc_branch`) never report any
diagnostic. -/
theorem claim_C3_range_check :
    (∀ (k : RISCV.FixupKind) (n v : Nat), RISCV.rangeCheckWidth k = some n →
      RISCV.isInt n v = false →
      "fixup value out of range" ∈ (RISCV.adjustFixupValue k v).1) ∧
    (∀ v : Nat, (RISCV.adjustFixupValue .fixup_riscv_pcrel_hi20 v).1 = [] ∧
      (RISCV.adjustFixupValue .fixup_riscv_rvc_jump v).1 = [] ∧
      (RISCV.adjustFixupValue .fixup_riscv_rvc_branch v).1 = []) := by
  constructor
  · intro k n v hk hfit
    cases k <;> simp [RISCV.rangeCheckWidth] at hk <;> subst hk <;>
      simp [RISCV.adjustFixupValue, hfit]
  · intro v
    exact ⟨rfl, rfl, rfl⟩

/-- Claim C3 witness: `0x200000` does not fit 21 signed bits and the
`fixup_riscv_jal` adjuster reports the range diagnostic for it, while the
unchecked `fixup_riscv_rvc_jump` reports nothing for `5`. -/
theorem claim_C3_range_check_witness :
    "fixup value out of range" ∈ (RISCV.adjustFixupValue .fixup_riscv_jal 0x200000).1 ∧
    (RISCV.adjustFixupValue .fixup_riscv_rvc_jump 5).1 = [] :=
  ⟨claim_C3_range_check.1 .fixup_riscv_jal 21 0x200000 rfl (by decide),
   (claim_C3_range_check.2 5).2.1⟩

/-- Claim C4: for the kinds whose adjuster validates 2-byte alignment
(`fixup_riscv_jal` and `fixup_riscv_branch`), every odd value makes the
adjuster report "fixup value must be 2-byte aligned". -/
theorem claim_C4_alignment (k : RISCV.FixupKind) (v : Nat) (_hv : v < 2 ^ 64)
    (hk : RISCV.requires2ByteAlign k = true) (hodd : v % 2 = 1) :
    "fixup value must be 2-byte aligned" ∈ (RISCV.adjustFixupValue k v).1 := by
  cases k <;> simp [RISCV.requires2ByteAlign] at hk <;>
    simp [RISCV.adjustFixupValue, Nat.and_one_is_mod, hodd]

/-- Claim C4 witness: the odd value `3` on `fixup_riscv_jal` draws the
alignment diagnostic. -/
theorem claim_C4_alignment_witness :
    "fixup value must be 2-byte aligned" ∈
      (RISCV.adjustFixupValue .fixup_riscv_jal 3).1 :=
  claim_C4_alignment .fixup_riscv_jal 3 (by decide) rfl (by decide)

/-- Claim C5 counterexample: a `fixup_riscv_lo12_i` fixup at offset 4 on a
2-byte buffer has `offset + getSize = 8 > 2`, yet the RISC-V `applyFixup`
reports no error whatsoever (neither through `KsError` nor through the
context); the claim that every out-of-bounds fixup draws a
`FixupBoundsError` is false on the RISC-V backend, which has no bounds
check (in a release build the C++ loop would write out of bounds). -/
theorem claim_C5_counterexample :
    RISCV.applyFixup .fixup_riscv_lo12_i 4 1 [0, 0] = (.KS_ERR_OK, [], [0, 0]) ∧
    [0, 0].length < 4 + RISCV.getSize .fixup_riscv_lo12_i := by
  exact ⟨by decide, by decide⟩

/-- Claim C5 (amended): the SystemZ `applyFixup` checks bounds: whenever
`offset` plus the field's byte size exceeds the buffer length it reports
`KS_ERR_ASM_FIXUP_INVALID` and returns the buffer unchanged; the RISC-V
`applyFixup` performs no such check. -/
theorem claim_C5_bounds (k : SystemZ.FixupKind) (offset v : Nat) (data : List Nat)
    (h : offset + (SystemZ.targetSize k + 7) / 8 > data.length) :
    SystemZ.applyFixup k offset v data = (.KS_ERR_ASM_FIXUP_INVALID, data) := by
  simp [SystemZ.applyFixup, h]

/-- Claim C5 witness: a 2-byte `FK_390_PC16DBL` fixup at offset 3 of a
2-byte buffer is rejected with `KS_ERR_ASM_FIXUP_INVALID` and the buffer
is returned unchanged. -/
theorem claim_C5_bounds_witness :
    SystemZ.applyFixup .FK_390_PC16DBL 3 0 [0, 0] =
      (.KS_ERR_ASM_FIXUP_INVALID, [0, 0]) :=
  claim_C5_bounds .FK_390_PC16DBL 3 0 [0, 0] (by decide)

/-- Claim C6: for every 64-bit value, the RISC-V adjuster maps
`fixup_riscv_hi20` and `fixup_riscv_pcrel_hi20` to
`((v + 0x800) >> 12) & 0xfffff`, `fixup_riscv_lo12_i` to the low 12 bits,
and `fixup_riscv_lo12_s` to `(v[11:5] << 25) | (v[4:0] << 7)`, with no
diagnostic.  (The `uint64` wrap of `v + 0x800` is invisible because the
mask keeps only bits 12..31.) -/
theorem claim_C6_hi20_lo12 (v : Nat) (_hv : v < 2 ^ 64) :
    RISCV.adjustFixupValue .fixup_riscv_hi20 v =
      ([], ((v + 0x800) >>> 12) &&& 0xfffff) ∧
    RISCV.adjustFixupValue .fixup_riscv_pcrel_hi20 v =
      ([], ((v + 0x800) >>> 12) &&& 0xfffff) ∧
    RISCV.adjustFixupValue .fixup_riscv_lo12_i v = ([], v &&& 0xfff) ∧
    RISCV.adjustFixupValue .fixup_riscv_lo12_s v =
      ([], (((v >>> 5) &&& 0x7f) <<< 25) ||| ((v &&& 0x1f) <<< 7)) := by
  refine ⟨?_, ?_, rfl, rfl⟩ <;>
  · show ([], (((v + 0x800) % 2 ^ 64) >>> 12) &&& 0xfffff) =
      ([], ((v + 0x800) >>> 12) &&& 0xfffff)
    rw [mask20_mod64]

/-- Claim C6 witness: `0x12345800` rounds up to hi20 `0x12346`, `0xfff`
keeps its low 12 bits, and `0x7ff` splits into the store-form fields. -/
theorem claim_C6_hi20_lo12_witness :
    RISCV.adjustFixupValue .fixup_riscv_hi20 0x12345800 = ([], 0x12346) ∧
    RISCV.adjustFixupValue .fixup_riscv_lo12_i 0xabc = ([], 0xabc) ∧
    RISCV.adjustFixupValue .fixup_riscv_lo12_s 0x7ff = ([], 0x7e000f80) := by
  refine ⟨?_, ?_, ?_⟩
  · rw [(claim_C6_hi20_lo12 0x12345800 (by decide)).1]; decide
  · rw [(claim_C6_hi20_lo12 0xabc (by decide)).2.2.1]; decide
  · rw [(claim_C6_hi20_lo12 0x7ff (by decide)).2.2.2]; decide

/-- Claim C7: applying an in-bounds RISC-V fixup whose adjusted value is
zero leaves the buffer byte-for-byte unchanged: either the raw value is
zero and `applyFixup` short-circuits, or it OR-merges only zero bytes. -/
theorem claim_C7_zero_noop (k : RISCV.FixupKind) (offset v : Nat)
    (data : List Nat) (_hbound : offset + RISCV.getSize k ≤ data.length)
    (hz : (RISCV.adjustFixupValue k v).2 = 0) :
    (RISCV.applyFixup k offset v data).2.2 = data := by
  unfold RISCV.applyFixup
  by_cases hv0 : v = 0
  · simp [hv0]
  · simp [hv0, hz, orBytesLE_zero]

/-- Claim C7 witness: `fixup_riscv_lo12_i` with raw value `0x1000` adjusts
to zero (its low 12 bits), and applying it does not change the buffer. -/
theorem claim_C7_zero_noop_witness :
    (RISCV.applyFixup .fixup_riscv_lo12_i 0 0x1000 [1, 2, 3, 4]).2.2 =
      [1, 2, 3, 4] :=
  claim_C7_zero_noop .fixup_riscv_lo12_i 0 0x1000 [1, 2, 3, 4]
    (by decide) (by decide)

/-- Claim C8: RISC-V `writeNopData` returns `false` and writes nothing
when the byte count is not a multiple of 4, and otherwise returns `true`
after writing exactly `count / 4` repetitions of the little-endian NOP
word `0x00000013`. -/
theorem claim_C8_nop_padding (n : Nat) :
    (n % 4 ≠ 0 → RISCV.writeNopData n = (false, [])) ∧
    (n % 4 = 0 → RISCV.writeNopData n =
      (true, (List.replicate (n / 4) [0x13, 0x00, 0x00, 0x00]).flatten)) := by
  constructor
  · intro h
    simp [RISCV.writeNopData, h]
  · intro h
    have hw : RISCV.write32 0x13 = [0x13, 0x00, 0x00, 0x00] := by decide
    have hloop := writeNopLoop_eq (n / 4) n 0 (Nat.zero_le n) (by omega)
    simp [RISCV.writeNopData, h, hloop, hw]

/-- Claim C8 witness: 8 bytes of padding emit the NOP word exactly twice;
6 bytes are refused. -/
theorem claim_C8_nop_padding_witness :
    RISCV.writeNopData 8 = (true, [0x13, 0, 0, 0, 0x13, 0, 0, 0]) ∧
    RISCV.writeNopData 6 = (false, []) :=
  ⟨((claim_C8_nop_padding 8).2 (by decide)).trans (by decide),
   (claim_C8_nop_padding 6).1 (by decide)⟩

/-- Claim C9: for `FK_390_PC16DBL` and `FK_390_PC32DBL` the installed
value is the resolved value halved by truncating signed 64-bit division:
`extractBitsForFixup kind v = uint64((int64_t) v / 2)`; concretely, a
nonnegative value yields `v / 2` and an even negative value (two's
complement `v ≥ 2 ^ 63`) yields `2 ^ 63 + v / 2`. -/
theorem claim_C9_pcdbl_halving (v : Nat) (_hv : v < 2 ^ 64) :
    SystemZ.extractBitsForFixup .FK_390_PC16DBL v =
      SystemZ.uint64OfInt (Int.tdiv (SystemZ.int64OfUInt64 v) 2) ∧
    SystemZ.extractBitsForFixup .FK_390_PC32DBL v =
      SystemZ.uint64OfInt (Int.tdiv (SystemZ.int64OfUInt64 v) 2) ∧
    (v < 2 ^ 63 → SystemZ.extractBitsForFixup .FK_390_PC16DBL v = v / 2) ∧
    (2 ^ 63 ≤ v → v % 2 = 0 →
      SystemZ.extractBitsForFixup .FK_390_PC16DBL v = 2 ^ 63 + v / 2) := by
  refine ⟨rfl, rfl, ?_, ?_⟩
  · intro h
    show SystemZ.uint64OfInt (Int.tdiv (SystemZ.int64OfUInt64 v) 2) = v / 2
    unfold SystemZ.int64OfUInt64
    rw [if_pos h]
    have key : Int.tdiv (v : Int) 2 = ((v / 2 : Nat) : Int) := by
      exact_mod_cast (Int.ofNat_tdiv v 2).symm
    rw [key]
    unfold SystemZ.uint64OfInt
    omega
  · intro h he
    show SystemZ.uint64OfInt (Int.tdiv (SystemZ.int64OfUInt64 v) 2) =
      2 ^ 63 + v / 2
    unfold SystemZ.int64OfUInt64
    rw [if_neg (by omega)]
    have h2 : (v : Int) - 2 ^ 64 = 2 * (((v / 2 : Nat) : Int) - 2 ^ 63) := by
      omega
    rw [h2, Int.mul_tdiv_cancel_left (((v / 2 : Nat) : Int) - 2 ^ 63)
      (by norm_num)]
    unfold SystemZ.uint64OfInt
    omega

/-- Claim C9 witness: resolved value `0x20` installs `0x10` on
`FK_390_PC16DBL`, and the two's-complement encoding of `-8` installs the
encoding of `-4` on `FK_390_PC32DBL`. -/
theorem claim_C9_pcdbl_halving_witness :
    SystemZ.extractBitsForFixup .FK_390_PC16DBL 0x20 = 0x10 ∧
    SystemZ.extractBitsForFixup .FK_390_PC32DBL (2 ^ 64 - 8) = 2 ^ 64 - 4 :=
  ⟨((claim_C9_pcdbl_halving 0x20 (by decide)).2.2.1 (by decide)).trans
      (by decide),
   by
    rw [(claim_C9_pcdbl_halving (2 ^ 64 - 8) (by decide)).2.1]
    decide⟩

/-- Claim C10: applying a `FK_390_TLS_CALL` fixup at any in-bounds offset
leaves the buffer entirely unchanged: the kind's `TargetSize` is 0, so
the byte-merge loop runs zero times (and `extractBitsForFixup` returns 0
for it anyway). -/
theorem claim_C10_tls_call_noop (offset v : Nat) (data : List Nat)
    (h : offset ≤ data.length) :
    SystemZ.applyFixup .FK_390_TLS_CALL offset v data = (.KS_ERR_OK, data) := by
  show (if offset + (SystemZ.targetSize .FK_390_TLS_CALL + 7) / 8 > data.length
    then ((.KS_ERR_ASM_FIXUP_INVALID, data) : KsErr × List Nat)
    else (.KS_ERR_OK, SystemZ.orBytesBE data offset
      ((SystemZ.targetSize .FK_390_TLS_CALL + 7) / 8)
      (SystemZ.extractBitsForFixup .FK_390_TLS_CALL v))) = (.KS_ERR_OK, data)
  rw [if_neg (by simp [SystemZ.targetSize]; omega)]
  rfl

/-- Claim C10 witness: a `FK_390_TLS_CALL` fixup at offset 0 of the buffer
`[9]` succeeds and returns the buffer unchanged. -/
theorem claim_C10_tls_call_noop_witness :
    SystemZ.applyFixup .FK_390_TLS_CALL 0 5 [9] = (.KS_ERR_OK, [9]) :=
  claim_C10_tls_call_noop 0 5 [9] (by decide)
